import Mathlib

set_option maxHeartbeats 1000000

/-!
Shallow embedding of `src/advance_pandas.py` (the `AdvancePandas` subclass of
`pandas.DataFrame` with its atomic-save, format-retention and backup logic).

Filesystem state is a finite map from structured paths to file contents plus a
set of directories.  External, nondeterministic collaborators (the lock-polling
helper `wait_for_file_availability` and the interactive dialogs, which live in
the repository's `utilities` module, not present under `src/`) are modelled
from the spec, with their outcomes supplied as explicit environment inputs.
-/

/-- A filesystem path as the code manipulates it through `pathlib.Path`:
`dir` is the parent directory, `stem` the file name without extension, `ext`
the suffix including the leading dot (`Path.suffix`). -/
structure FPath where
  dir : String
  stem : String
  ext : String
  deriving DecidableEq, Repr

/-- Association-list lookup: first entry with the given key wins. -/
def Assoc.get {κ α : Type} [DecidableEq κ] : List (κ × α) → κ → Option α
  | [], _ => none
  | e :: rest, k => if k = e.1 then some e.2 else Assoc.get rest k

/-- Remove every entry with the given key. -/
def Assoc.erase {κ α : Type} [DecidableEq κ] (l : List (κ × α)) (k : κ) : List (κ × α) :=
  l.filter fun e => ! decide (e.1 = k)

/-- An openpyxl worksheet, reduced to the observations the code makes:
title, extent, cell values, per-column widths (`column_dimensions[letter].width`,
`none` when unset) and per-cell alignment (the default openpyxl alignment is
the string "default"). Columns are canonically identified by their 1-based
index; `get_column_letter` is the bijective letter rendering of that index. -/
structure Sheet where
  title : String
  maxCol : Nat
  maxRow : Nat
  data : List (List String)
  widths : List (Nat × Option Nat)
  aligns : List ((Nat × Nat) × String)
  deriving DecidableEq, Repr

def Sheet.widthOf (s : Sheet) (c : Nat) : Option Nat :=
  match Assoc.get s.widths c with
  | some w => w
  | none => none

def Sheet.alignOf (s : Sheet) (r c : Nat) : String :=
  match Assoc.get s.aligns (r, c) with
  | some a => a
  | none => "default"

def Sheet.setWidth (s : Sheet) (c : Nat) (w : Option Nat) : Sheet :=
  { s with widths := (c, w) :: s.widths }

def Sheet.setAlign (s : Sheet) (r c : Nat) (a : String) : Sheet :=
  { s with aligns := ((r, c), a) :: s.aligns }

/-- File contents, at the granularity the claims observe: a delimited-text
serialization of a frame (no index column), a spreadsheet workbook with a
single sheet, an empty just-created file, or a truncated file mid-copy. -/
inductive FileData
  | csvFile (cols : List String) (rows : List (List String))
  | xlsxFile (sheet : Sheet)
  | emptyFile
  | truncated
  deriving DecidableEq, Repr

/-- The filesystem: an association list of files plus the set of directories. -/
structure FileSys where
  files : List (FPath × FileData)
  dirs : List String
  deriving DecidableEq, Repr

def FileSys.lookup (fs : FileSys) (p : FPath) : Option FileData :=
  Assoc.get fs.files p

def FileSys.writeFile (fs : FileSys) (p : FPath) (d : FileData) : FileSys :=
  { fs with files := (p, d) :: fs.files }

def FileSys.removeFile (fs : FileSys) (p : FPath) : FileSys :=
  { fs with files := Assoc.erase fs.files p }

/-- `Path.mkdir(exist_ok=True)`. -/
def FileSys.mkdir (fs : FileSys) (d : String) : FileSys :=
  if d ∈ fs.dirs then fs else { fs with dirs := d :: fs.dirs }

def FileSys.existsFile (fs : FileSys) (p : FPath) : Bool :=
  (fs.lookup p).isSome

/-- The in-memory tabular data: column names and rows of cell values. -/
structure DataFrame where
  cols : List String
  rows : List (List String)
  deriving DecidableEq, Repr

/-- The `AdvancePandas` object: the frame plus the two provenance fields the
class declares in `_metadata` (`source_file`, `destination_file`).  Following
the spec's design note, the subclass is modelled as a wrapper owning the frame
and the two fields. -/
structure AdvancePandas where
  df : DataFrame
  source_file : Option FPath
  destination_file : Option FPath
  deriving DecidableEq, Repr

/-- `openpyxl.utils.get_column_letter`: bijective base-26 rendering of a
1-based column index (A, B, ..., Z, AA, ...).  Fuel-driven recursion; `n`
itself is always enough fuel since the quotient strictly decreases. -/
def getColumnLetterAux : Nat → Nat → List Char
  | 0, _ => []
  | fuel + 1, n =>
    if n = 0 then []
    else getColumnLetterAux fuel ((n - 1) / 26) ++ [Char.ofNat (65 + (n - 1) % 26)]

def getColumnLetter (n : Nat) : String :=
  ⟨getColumnLetterAux n n⟩

/-- `range(a, a+len)` as the loops in the code iterate it. -/
def countFrom (a : Nat) : Nat → List Nat
  | 0 => []
  | n + 1 => a :: countFrom (a + 1) n

/-- `DataFrame.to_excel(path, index=False)` content: header row included, no
index column, a single sheet with the given title and default formatting. -/
def excelSheetOf (df : DataFrame) (title : String) : Sheet :=
  { title := title, maxCol := df.cols.length, maxRow := df.rows.length + 1,
    data := df.cols :: df.rows, widths := [], aligns := [] }

/-- Serialization of the frame into the temp file, per target extension:
`to_csv(index=False)` for `.csv`, `to_excel(index=False)` (default sheet name
"Sheet1") for `.xlsx`. -/
def serializePlain (df : DataFrame) (ext : String) : FileData :=
  if ext = ".csv" then .csvFile df.cols df.rows
  else .xlsxFile (excelSheetOf df "Sheet1")

/-- Errors raised by `save` / `_save_to_file`. -/
inductive SaveError
  | noPath
  | unsupportedExtension
  | targetLocked
  | badWorkbook
  deriving DecidableEq, Repr

/-- The process-wide SIGINT disposition: the Python default interrupt handler,
the local `ignore_keyboard_interrupt` function installed by `_save_to_file`,
or any other handler a caller may have installed beforehand. -/
inductive SigHandler
  | defaultInt
  | ignoreKI
  | custom (name : String)
  deriving DecidableEq, Repr

/-- Process state threaded through a save: the filesystem and the SIGINT
handler currently installed. -/
structure PState where
  fs : FileSys
  sigint : SigHandler
  deriving DecidableEq, Repr

/-- Environment inputs for one `_save_to_file` run: the unique name
`NamedTemporaryFile` generates, the outcomes of the two availability waits,
and whether `os.rename` replaces an existing destination (true on POSIX,
false on Windows — the module imports `os.startfile`, which exists only on
Windows, so the operative platform has `renameReplaces = false`). -/
structure SaveEnv where
  tmpName : String
  targetAvailable : Bool
  backupAvailable : Bool
  renameReplaces : Bool
  deriving DecidableEq, Repr

/-- Environment inputs for the interactive path resolution in `save`: the
answer to the overwrite-source yes/no prompt, and the save-as dialog result
(`none` models the falsy empty string returned on cancel). -/
structure ResolveEnv where
  overwriteSource : Bool
  saveAsAnswer : Option FPath
  deriving DecidableEq, Repr

def tempDirOf (fp : FPath) : String := fp.dir ++ "/TemporaryFiles"

def tempPathOf (fp : FPath) (nm : String) : FPath := ⟨tempDirOf fp, nm, fp.ext⟩

/-- `file_path.with_name(f"{file_path.stem} - Backup{file_path.suffix}")`. -/
def backupPath (fp : FPath) : FPath := ⟨fp.dir, fp.stem ++ " - Backup", fp.ext⟩

/-- Modelled from the spec: `wait_for_file_availability` from the repository's
`utilities` module is not under `src/`.  Per the spec it is a polling wait
with a bounded retry count and fixed delay; with `notify_only` it reports
failure to acquire availability without raising, otherwise failure past the
bound is fatal.  The poll's outcome is supplied by the caller. -/
def waitForFileAvailability (outcome : Bool) (notifyOnly : Bool) : Except SaveError Bool :=
  if outcome then .ok true
  else if notifyOnly then .ok false
  else .error .targetLocked

/-- The truthiness of `wait_for_file_availability(path, notify_only=True)` as
the backup branch tests it. -/
def notifyWaitFree (outcome : Bool) : Bool :=
  match waitForFileAvailability outcome true with
  | .ok b => b
  | .error _ => false

/-- One iteration of the loop in `_transfer_excel_format`: for the entry
`(col index, column letter, captured width, captured header alignment)`,
set the column's width and then set every cell of that column's range
(rows 1..max_row, via iterating `updated_sheet[get_column_letter(col_idx)]`)
to the captured alignment. -/
def applyColumnFormat (s : Sheet) (e : Nat × String × Option Nat × String) : Sheet :=
  let s1 := s.setWidth e.1 e.2.2.1
  (countFrom 1 s1.maxRow).foldl (fun t r => t.setAlign r e.1 e.2.2.2) s1

/-- `AdvancePandas._transfer_excel_format`: capture, for every column from 1
to the reference sheet's `max_column`, the column's width and the row-1
(header) cell's alignment, keyed by column letter in left-to-right insertion
order; re-serialize the frame (header included, no index) into a fresh sheet
named after the reference sheet's title; then, enumerating the captured
entries from 1, apply each column's width and alignment.  In the code the
dict key `col_letter` and `get_column_letter(col_idx)` of the enumeration
always coincide (the dict is built over `range(1, max_column+1)` in order and
preserves insertion order), so both designate the same column; the embedding
identifies a column by its index and carries the letter alongside. -/
def transferExcelFormat (refSheet : Sheet) (df : DataFrame) : Sheet :=
  let columnDetails : List (Nat × String × Option Nat × String) :=
    (countFrom 1 refSheet.maxCol).map fun c =>
      (c, getColumnLetter c, refSheet.widthOf c, refSheet.alignOf 1 c)
  let updatedSheet := excelSheetOf df refSheet.title
  columnDetails.foldl applyColumnFormat updatedSheet

/-- The walrus expression in `_save_to_file`:
`reference_file := file_path if file_path.exists() else self.source_file`
(a falsy `source_file` yields no reference). -/
def chooseReference (self : AdvancePandas) (fp : FPath) (fs : FileSys) : Option FPath :=
  if fs.existsFile fp then some fp else self.source_file

/-- `openpyxl.load_workbook`: succeeds only if the path holds a readable
spreadsheet workbook; a missing file or non-workbook bytes raise. -/
def loadWorkbook (fs : FileSys) (p : FPath) : Except SaveError Sheet :=
  match fs.lookup p with
  | some (.xlsxFile s) => .ok s
  | _ => .error .badWorkbook

/-- The `retain_format` block of `_save_to_file`, acting on the state after
the temp file has been serialized: choose the reference; if it is set and has
a spreadsheet suffix, run `_transfer_excel_format(reference, temp, self)`,
which rewrites the temp file twice (the plain `ExcelWriter` re-serialization,
then the formatted workbook saved in place).  Returns the list of successor
filesystem states, or the propagated error. -/
def retainFormatStep (self : AdvancePandas) (fp tempPath : FPath) (fs : FileSys) :
    Except SaveError (List FileSys) :=
  match chooseReference self fp fs with
  | none => .ok []
  | some ref =>
    if ref.ext = ".xlsx" ∨ ref.ext = ".xls" then
      match loadWorkbook fs ref with
      | .error e => .error e
      | .ok refSheet =>
        let fsW := fs.writeFile tempPath (.xlsxFile (excelSheetOf self.df refSheet.title))
        let fsF := fsW.writeFile tempPath (.xlsxFile (transferExcelFormat refSheet self.df))
        .ok [fsW, fsF]
    else .ok []

/-- `shutil.move(src, dst)`: `os.rename` is attempted first; if it succeeds
the move is a single atomic replace.  When the destination already exists and
the platform's rename cannot replace it (Windows, the platform this module
requires through `os.startfile`), the raised `OSError` makes `shutil.move`
fall back to `copy2(src, dst)` followed by `os.unlink(src)` — the existing
destination is truncated and rewritten in place, then the source is removed.
Returns the successive filesystem states produced by the move. -/
def shutilMove (renameReplaces : Bool) (fs : FileSys) (src dst : FPath) : List FileSys :=
  let data := (fs.lookup src).getD .emptyFile
  if fs.existsFile dst = false ∨ renameReplaces then
    [(fs.removeFile src).writeFile dst data]
  else
    let fs1 := fs.writeFile dst .truncated
    let fs2 := fs1.writeFile dst data
    [fs1, fs2, fs2.removeFile src]

/-- The body of `_save_to_file` inside the `try` block: make the
`TemporaryFiles` directory, create the uniquely named temp file and serialize
the frame into it, optionally transplant formatting, wait for the target if
it exists, move the temp file onto the target, then optionally refresh the
backup (`copy2` truncates and rewrites the existing backup file) and open the
result (`startfile`, no filesystem effect).  Returns the final filesystem
(the last trace state), the trace of filesystem states with the initial state
first, and the outcome. -/
def saveToFileBody (self : AdvancePandas) (fp : FPath)
    (retainFormat autoOpen createBackup : Bool)
    (env : SaveEnv) (fs0 : FileSys) : FileSys × List FileSys × Except SaveError Unit :=
  let fs1 := fs0.mkdir (tempDirOf fp)
  let tempPath := tempPathOf fp env.tmpName
  let fs2 := fs1.writeFile tempPath .emptyFile
  let fs3 := fs2.writeFile tempPath (serializePlain self.df fp.ext)
  let pre : List FileSys := [fs0, fs1, fs2, fs3]
  match (if retainFormat then retainFormatStep self fp tempPath fs3 else .ok []) with
  | .error e => (fs3, pre, .error e)
  | .ok mid =>
    let fsA := mid.getLastD fs3
    let waitOutcome : Except SaveError Bool :=
      if fsA.existsFile fp then waitForFileAvailability env.targetAvailable false
      else .ok true
    match waitOutcome with
    | .error e => (fsA, pre ++ mid, .error e)
    | .ok _ =>
      let moveStates := shutilMove env.renameReplaces fsA tempPath fp
      let fsM := moveStates.getLastD fsA
      if createBackup then
        let bp := backupPath fp
        let backupFree := notifyWaitFree env.backupAvailable
        if fsM.existsFile bp && backupFree then
          let fsB1 := fsM.writeFile bp .truncated
          let fsB2 := fsB1.writeFile bp ((fsM.lookup fp).getD .emptyFile)
          (fsB2, pre ++ mid ++ moveStates ++ [fsB1, fsB2], .ok ())
        else (fsM, pre ++ mid ++ moveStates, .ok ())
      else (fsM, pre ++ mid ++ moveStates, .ok ())

/-- `AdvancePandas._save_to_file`: install the local SIGINT-ignoring handler,
validate the extension (the `raise` for an unsupported extension sits before
the `try`, so the `finally` does not run on that path), run the body, and in
the `finally` set the SIGINT handler to `signal.default_int_handler`.
Returns the final process state, the trace of filesystem states, and the
outcome. -/
def saveToFile (self : AdvancePandas) (fp : FPath)
    (retainFormat autoOpen createBackup : Bool)
    (env : SaveEnv) (st : PState) : PState × List FileSys × Except SaveError Unit :=
  let stIgnore : PState := { st with sigint := .ignoreKI }
  if fp.ext = ".csv" ∨ fp.ext = ".xlsx" then
    let out := saveToFileBody self fp retainFormat autoOpen createBackup env stIgnore.fs
    ({ fs := out.1, sigint := .defaultInt }, out.2.1, out.2.2)
  else
    (stIgnore, [stIgnore.fs], .error .unsupportedExtension)

/-- The destination-resolution prelude of `AdvancePandas.save`: an explicit
path is used as-is; else the stored `destination_file`; else, if there is a
stored `source_file`, the overwrite-source yes/no prompt decides between the
source path and the save-as dialog's answer; if the path obtained is still
falsy, raise `ValueError("No save file_path provided.")`.  Falsy paths (the
empty string, `None`) are modelled as `none`. -/
def resolveSavePath (filePath destinationFile sourceFile : Option FPath)
    (renv : ResolveEnv) : Except SaveError FPath :=
  match filePath with
  | some p => .ok p
  | none =>
    match destinationFile with
    | some d => .ok d
    | none =>
      let fp : Option FPath :=
        match sourceFile with
        | some s => if renv.overwriteSource then some s else renv.saveAsAnswer
        | none => none
      match fp with
      | some p => .ok p
      | none => .error .noPath

/-- `AdvancePandas.save` on the synchronous path: resolve the destination,
then run `_save_to_file`.  (In async mode the same `_save_to_file`, with the
already-resolved path, runs in a separate worker process; resolution happens
before the fork either way.) -/
def save (self : AdvancePandas) (filePath : Option FPath)
    (retainFormat autoOpen createBackup : Bool)
    (renv : ResolveEnv) (env : SaveEnv) (st : PState) :
    PState × List FileSys × Except SaveError Unit :=
  match resolveSavePath filePath self.destination_file self.source_file renv with
  | .error e => (st, [st.fs], .error e)
  | .ok p => saveToFile self p retainFormat autoOpen createBackup env st

/-- The `_metadata` class attribute: the attribute names pandas propagates to
derived instances. -/
def metadataFields : List String := ["source_file", "destination_file"]

/-- Copy one `_metadata`-listed attribute from the original instance onto a
derived instance. -/
def copyMetadataField (name : String) (src dst : AdvancePandas) : AdvancePandas :=
  if name = "source_file" then { dst with source_file := src.source_file }
  else if name = "destination_file" then { dst with destination_file := src.destination_file }
  else dst

/-- The `_constructor` hook: pandas builds derived frames through it, calling
`AdvancePandas.__init__` with its default `None` provenance arguments. -/
def constructorNew (d : DataFrame) : AdvancePandas :=
  { df := d, source_file := none, destination_file := none }

/-- Modelled from the spec: pandas' `__finalize__` propagation of `_metadata`
attributes is library behavior outside `src/`; per the pandas `_metadata`
contract and the spec's invariant, a derived instance is built through
`_constructor` and then each attribute named in `_metadata` is copied over
from the original. -/
def finalizeDerived (orig : AdvancePandas) (d : DataFrame) : AdvancePandas :=
  metadataFields.foldl (fun acc n => copyMetadataField n orig acc) (constructorNew d)

/-- A derived dataset: any transformation of the frame, finalized from the
original (copy, filter, added column, merge result, ...). -/
def derive (orig : AdvancePandas) (t : DataFrame → DataFrame) : AdvancePandas :=
  finalizeDerived orig (t orig.df)

/-- `copy()` as a derived dataset. -/
def copyDataset (a : AdvancePandas) : AdvancePandas := derive a (fun d => d)

/-- Row filtering as a derived dataset. -/
def filterRows (a : AdvancePandas) (p : List String → Bool) : AdvancePandas :=
  derive a (fun d => { d with rows := d.rows.filter p })

/-- Adding a column as a derived dataset. -/
def addColumn (a : AdvancePandas) (name : String) (vals : List String) : AdvancePandas :=
  derive a (fun d =>
    { cols := d.cols ++ [name],
      rows := (d.rows.zip vals).map fun rv => rv.1 ++ [rv.2] })

theorem Assoc.get_erase {κ α : Type} [DecidableEq κ] (l : List (κ × α)) (k k' : κ) :
    Assoc.get (Assoc.erase l k) k' = if k' = k then none else Assoc.get l k' := by
  induction l with
  | nil => simp [Assoc.erase, Assoc.get]
  | cons e rest ih =>
    have herase : Assoc.erase (e :: rest) k =
        if e.1 = k then Assoc.erase rest k else e :: Assoc.erase rest k := by
      by_cases hek : e.1 = k <;> simp [Assoc.erase, List.filter, hek]
    by_cases hek : e.1 = k
    · rw [herase, if_pos hek, ih]
      by_cases hk : k' = k
      · simp [hk]
      · have hke : k' ≠ e.1 := fun h => hk (h.trans hek)
        simp [hk, Assoc.get, hke]
    · rw [herase, if_neg hek]
      by_cases hke : k' = e.1
      · have hk : k' ≠ k := fun h => hek (hke ▸ h)
        simp [Assoc.get, hke, hk, hek]
      · simp [Assoc.get, hke, ih]

theorem FileSys.lookup_writeFile (fs : FileSys) (p q : FPath) (d : FileData) :
    (fs.writeFile p d).lookup q = if q = p then some d else fs.lookup q := by
  simp [FileSys.writeFile, FileSys.lookup, Assoc.get]

theorem FileSys.lookup_removeFile (fs : FileSys) (p q : FPath) :
    (fs.removeFile p).lookup q = if q = p then none else fs.lookup q := by
  simp [FileSys.removeFile, FileSys.lookup, Assoc.get_erase]

theorem FileSys.lookup_mkdir (fs : FileSys) (d : String) (q : FPath) :
    (fs.mkdir d).lookup q = fs.lookup q := by
  simp only [FileSys.mkdir]
  split <;> rfl

theorem String.self_ne_append_of_length (s t : String) (ht : t.length ≠ 0) :
    s ≠ s ++ t := by
  intro he
  have hl := congrArg String.length he
  rw [String.length_append] at hl
  omega

theorem tempPathOf_ne (fp : FPath) (nm : String) : tempPathOf fp nm ≠ fp := by
  intro h
  have hd : tempDirOf fp = fp.dir := congrArg FPath.dir h
  exact String.self_ne_append_of_length fp.dir "/TemporaryFiles" (by decide) hd.symm

theorem backupPath_ne (fp : FPath) : backupPath fp ≠ fp := by
  intro h
  have hs : fp.stem ++ " - Backup" = fp.stem := congrArg FPath.stem h
  exact String.self_ne_append_of_length fp.stem " - Backup" (by decide) hs.symm

theorem backupPath_ne_tempPathOf (fp : FPath) (nm : String) :
    backupPath fp ≠ tempPathOf fp nm := by
  intro h
  have hd : fp.dir = tempDirOf fp := congrArg FPath.dir h
  exact String.self_ne_append_of_length fp.dir "/TemporaryFiles" (by decide) hd

theorem retainFormatStep_ok_lookup (self : AdvancePandas) (fp tp : FPath) (fs : FileSys)
    (mid : List FileSys) (h : retainFormatStep self fp tp fs = .ok mid)
    (q : FPath) (hq : q ≠ tp) : (mid.getLastD fs).lookup q = fs.lookup q := by
  unfold retainFormatStep at h
  split at h
  · injection h with h
    subst h
    rfl
  · split at h
    · split at h
      · cases h
      · injection h with h
        subst h
        simp [List.getLastD, FileSys.lookup_writeFile, hq]
    · injection h with h
      subst h
      rfl

theorem retainFormatStep_ok_isSome_tp (self : AdvancePandas) (fp tp : FPath) (fs : FileSys)
    (mid : List FileSys) (h : retainFormatStep self fp tp fs = .ok mid)
    (hfs : (fs.lookup tp).isSome) : ((mid.getLastD fs).lookup tp).isSome := by
  unfold retainFormatStep at h
  split at h
  · injection h with h
    subst h
    exact hfs
  · split at h
    · split at h
      · cases h
      · injection h with h
        subst h
        simp [List.getLastD, FileSys.lookup_writeFile]
    · injection h with h
      subst h
      exact hfs

theorem shutilMove_getLastD_lookup (flag : Bool) (fs : FileSys) (src dst : FPath)
    (hne : src ≠ dst) (q : FPath) :
    (((shutilMove flag fs src dst).getLastD fs).lookup q) =
      if q = dst then some ((fs.lookup src).getD .emptyFile)
      else if q = src then none
      else fs.lookup q := by
  have hds : dst ≠ src := fun h => hne h.symm
  unfold shutilMove
  split
  · by_cases hqd : q = dst
    · simp [List.getLastD, FileSys.lookup_writeFile, hqd]
    · by_cases hqs : q = src
      · simp [List.getLastD, FileSys.lookup_writeFile, FileSys.lookup_removeFile, hqd, hqs]
      · simp [List.getLastD, FileSys.lookup_writeFile, FileSys.lookup_removeFile, hqd, hqs]
  · by_cases hqd : q = dst
    · have hqs : q ≠ src := fun h => hds ((hqd.symm.trans h).symm ▸ rfl)
      simp [List.getLastD, FileSys.lookup_writeFile, FileSys.lookup_removeFile, hqd, hqs, hds]
    · by_cases hqs : q = src
      · simp [List.getLastD, FileSys.lookup_writeFile, FileSys.lookup_removeFile, hqd, hqs, hne]
      · simp [List.getLastD, FileSys.lookup_writeFile, FileSys.lookup_removeFile, hqd, hqs]

instance {ε α : Type} [DecidableEq ε] [DecidableEq α] : DecidableEq (Except ε α) := fun a b =>
  match a, b with
  | .ok x, .ok y =>
    if h : x = y then isTrue (by rw [h]) else isFalse (by intro hh; injection hh; contradiction)
  | .error x, .error y =>
    if h : x = y then isTrue (by rw [h]) else isFalse (by intro hh; injection hh; contradiction)
  | .ok _, .error _ => isFalse (by intro hh; cases hh)
  | .error _, .ok _ => isFalse (by intro hh; cases hh)

/-- The 3-row, 2-column frame of the spec's concrete scenario, as loaded from
`data.csv`. -/
def dfOld : DataFrame := ⟨["a", "b"], [["1", "2"], ["3", "4"], ["5", "6"]]⟩

/-- The modified frame to be saved back in the concrete scenario. -/
def dfNew : DataFrame := ⟨["a", "b"], [["7", "8"], ["9", "10"], ["11", "12"]]⟩

def dataCsvPath : FPath := ⟨"/work", "data", ".csv"⟩

/-- Concrete environment: unique temp name, both waits succeed, Windows
rename semantics (the platform `os.startfile` pins). -/
def envWin : SaveEnv := ⟨"tmp0001", true, true, false⟩

/-- Scenario filesystem: `data.csv` holds the previously saved content and no
backup file exists. -/
def fsScen : FileSys := ⟨[(dataCsvPath, .csvFile dfOld.cols dfOld.rows)], []⟩

/-- Scenario dataset: the modified frame, loaded from `data.csv`. -/
def apScen : AdvancePandas := ⟨dfNew, some dataCsvPath, none⟩

def stScen : PState := ⟨fsScen, .defaultInt⟩

/-- C4: for every resolved path whose extension is not `.csv` or `.xlsx`, the
save fails immediately with the unsupported-extension error, the filesystem is
completely untouched (so no temp file is created and the `TemporaryFiles`
subdirectory is not created), and the trace contains only the initial state. -/
theorem unsupported_extension_fails_without_side_effects
    (self : AdvancePandas) (fp : FPath) (rf ao cb : Bool) (env : SaveEnv) (st : PState)
    (h : ¬ (fp.ext = ".csv" ∨ fp.ext = ".xlsx")) :
    (saveToFile self fp rf ao cb env st).2.2 = .error .unsupportedExtension ∧
    (saveToFile self fp rf ao cb env st).1.fs = st.fs ∧
    (saveToFile self fp rf ao cb env st).2.1 = [st.fs] := by
  unfold saveToFile
  rw [if_neg h]
  exact ⟨rfl, rfl, rfl⟩

/-- Witness for the unsupported-extension theorem at the concrete path
`/work/f.txt`. -/
theorem unsupported_extension_fails_without_side_effects_attest :
    (saveToFile apScen ⟨"/work", "f", ".txt"⟩ false false false envWin stScen).2.2 =
      .error .unsupportedExtension ∧
    (saveToFile apScen ⟨"/work", "f", ".txt"⟩ false false false envWin stScen).1.fs = stScen.fs ∧
    (saveToFile apScen ⟨"/work", "f", ".txt"⟩ false false false envWin stScen).2.1 = [stScen.fs] :=
  unsupported_extension_fails_without_side_effects apScen ⟨"/work", "f", ".txt"⟩
    false false false envWin stScen (by decide)

/-- C3 counterexample: with a caller-installed SIGINT handler in effect before
the call, the handler is not restored on exit — on the unsupported-extension
path the ignoring handler installed at entry stays in place (the `raise` sits
before the `try`/`finally`), and on the successful path the handler is set to
the Python default handler, not the pre-call one.  The claim, which asserts
the pre-call behavior is restored on every exit, is false at these inputs. -/
theorem sigint_not_restored_counterexample :
    (saveToFile apScen ⟨"/work", "f", ".txt"⟩ false false false envWin
        ⟨fsScen, .custom "user_handler"⟩).1.sigint = .ignoreKI ∧
    (saveToFile apScen dataCsvPath false false false envWin
        ⟨fsScen, .custom "user_handler"⟩).1.sigint = .defaultInt ∧
    SigHandler.ignoreKI ≠ .custom "user_handler" ∧
    SigHandler.defaultInt ≠ .custom "user_handler" := by
  refine ⟨by decide, by decide, by decide, by decide⟩

/-- C3 amended: on every run, if the extension is supported the SIGINT handler
on exit is the Python default interrupt handler (installed by the `finally`
block on success and on every failure raised inside the `try`), not
necessarily the pre-call handler; if the extension is unsupported, the
ignoring handler installed at entry remains in effect, because the validation
`raise` precedes the `try`/`finally` scope. -/
theorem sigint_final_state_characterization
    (self : AdvancePandas) (fp : FPath) (rf ao cb : Bool) (env : SaveEnv) (st : PState) :
    (saveToFile self fp rf ao cb env st).1.sigint =
      if fp.ext = ".csv" ∨ fp.ext = ".xlsx" then SigHandler.defaultInt
      else SigHandler.ignoreKI := by
  unfold saveToFile
  split <;> rfl

/-- C1 counterexample, at the spec's concrete scenario: `data.csv` holds the
old 3x2 content, no backup file exists, and the dataset (loaded from
`data.csv`) is saved back to `data.csv` with `create_backup = True`.  After
the save the destination holds the new content, but no file exists at
`data - Backup.csv` at all: the code only refreshes a backup that already
exists (`if backup_file_path.exists() and ...: copy2(...)`), so the claimed
backup holding the pre-save content is never created. -/
theorem backup_not_created_counterexample :
    (saveToFile apScen dataCsvPath false false true envWin stScen).2.2 = .ok () ∧
    (saveToFile apScen dataCsvPath false false true envWin stScen).1.fs.lookup dataCsvPath =
      some (.csvFile dfNew.cols dfNew.rows) ∧
    (saveToFile apScen dataCsvPath false false true envWin stScen).1.fs.lookup
      (backupPath dataCsvPath) = none := by
  refine ⟨by decide, by decide, by decide⟩

/-- C2, evaluated at the failing input: saving over an existing `data.csv`
under the platform the module requires (Windows, where `os.rename` cannot
replace an existing file — the module imports `os.startfile`), `shutil.move`
falls back to `copy2` + `unlink`: the save succeeds, yet the trace contains a
state in which the destination holds a truncated partial file, neither the
previous nor the new complete content — the destination was installed by a
copy-then-delete, not a single atomic rename-style replace. -/
theorem move_fallback_exposes_partial_destination :
    (saveToFile apScen dataCsvPath false false false envWin stScen).2.2 = .ok () ∧
    ((saveToFile apScen dataCsvPath false false false envWin stScen).2.1).any
      (fun g => g.lookup dataCsvPath = some .truncated) = true ∧
    FileData.truncated ≠ .csvFile dfOld.cols dfOld.rows ∧
    FileData.truncated ≠ .csvFile dfNew.cols dfNew.rows := by
  refine ⟨by decide, by decide, by decide, by decide⟩

theorem retainIf_ok_lookup (self : AdvancePandas) (fp tp : FPath) (fs : FileSys)
    (rf : Bool) (mid : List FileSys)
    (h : (if rf then retainFormatStep self fp tp fs else Except.ok []) = .ok mid)
    (q : FPath) (hq : q ≠ tp) : (mid.getLastD fs).lookup q = fs.lookup q := by
  by_cases hrf : rf = true
  · rw [if_pos hrf] at h
    exact retainFormatStep_ok_lookup self fp tp fs mid h q hq
  · rw [if_neg hrf] at h
    injection h with h
    subst h
    rfl

theorem retainIf_ok_isSome (self : AdvancePandas) (fp tp : FPath) (fs : FileSys)
    (rf : Bool) (mid : List FileSys)
    (h : (if rf then retainFormatStep self fp tp fs else Except.ok []) = .ok mid)
    (hfs : (fs.lookup tp).isSome) : ((mid.getLastD fs).lookup tp).isSome := by
  by_cases hrf : rf = true
  · rw [if_pos hrf] at h
    exact retainFormatStep_ok_isSome_tp self fp tp fs mid h hfs
  · rw [if_neg hrf] at h
    injection h with h
    subst h
    exact hfs

theorem notifyWaitFree_eval (b : Bool) : notifyWaitFree b = b := by
  cases b <;> rfl

theorem saveToFileBody_ok_final (self : AdvancePandas) (fp : FPath) (rf ao cb : Bool)
    (env : SaveEnv) (fs0 : FileSys)
    (hok : (saveToFileBody self fp rf ao cb env fs0).2.2 = .ok ()) :
    ((saveToFileBody self fp rf ao cb env fs0).1.lookup fp).isSome ∧
    (rf = false → (saveToFileBody self fp rf ao cb env fs0).1.lookup fp =
        some (serializePlain self.df fp.ext)) ∧
    (cb = true → fs0.existsFile (backupPath fp) = true → env.backupAvailable = true →
       (saveToFileBody self fp rf ao cb env fs0).1.lookup (backupPath fp) =
       (saveToFileBody self fp rf ao cb env fs0).1.lookup fp) ∧
    (cb = true → fs0.existsFile (backupPath fp) = false →
       (saveToFileBody self fp rf ao cb env fs0).1.lookup (backupPath fp) = none) ∧
    (env.backupAvailable = false →
       (saveToFileBody self fp rf ao cb env fs0).1.lookup (backupPath fp) =
         fs0.lookup (backupPath fp)) := by
  have htp : fp ≠ tempPathOf fp env.tmpName := (tempPathOf_ne fp env.tmpName).symm
  have hbpf : backupPath fp ≠ fp := backupPath_ne fp
  have hfpbp : fp ≠ backupPath fp := hbpf.symm
  have hbtp : backupPath fp ≠ tempPathOf fp env.tmpName := backupPath_ne_tempPathOf fp env.tmpName
  have htpf : tempPathOf fp env.tmpName ≠ fp := tempPathOf_ne fp env.tmpName
  revert hok
  simp only [saveToFileBody, notifyWaitFree_eval]
  set TP := tempPathOf fp env.tmpName with hTP
  set FS3 : FileSys :=
    ((fs0.mkdir (tempDirOf fp)).writeFile TP FileData.emptyFile).writeFile TP
      (serializePlain self.df fp.ext) with hFS3
  have hFS3fp : FS3.lookup fp = fs0.lookup fp := by
    simp [hFS3, FileSys.lookup_writeFile, FileSys.lookup_mkdir, htp]
  have hFS3bp : FS3.lookup (backupPath fp) = fs0.lookup (backupPath fp) := by
    simp [hFS3, FileSys.lookup_writeFile, FileSys.lookup_mkdir, hbtp]
  have hFS3tp : FS3.lookup TP = some (serializePlain self.df fp.ext) := by
    simp [hFS3, FileSys.lookup_writeFile]
  split
  · intro hok
    exact absurd hok (by simp)
  · rename_i mid heq
    set FSA : FileSys := mid.getLastD FS3 with hFSA
    have hAfp : FSA.lookup fp = fs0.lookup fp := by
      rw [hFSA, retainIf_ok_lookup self fp TP FS3 rf mid heq fp htp, hFS3fp]
    have hAbp : FSA.lookup (backupPath fp) = fs0.lookup (backupPath fp) := by
      rw [hFSA, retainIf_ok_lookup self fp TP FS3 rf mid heq (backupPath fp) hbtp, hFS3bp]
    have hAtp : (FSA.lookup TP).isSome := by
      rw [hFSA]
      exact retainIf_ok_isSome self fp TP FS3 rf mid heq (by rw [hFS3tp]; rfl)
    have hAtp_rf : rf = false → FSA.lookup TP = some (serializePlain self.df fp.ext) := by
      intro hrf
      rw [if_neg (by simp [hrf])] at heq
      injection heq with heq
      rw [hFSA, ← heq]
      exact hFS3tp
    split
    · intro hok
      exact absurd hok (by simp)
    · rename_i wres hweq
      set FSM : FileSys := (shutilMove env.renameReplaces FSA TP fp).getLastD FSA with hFSM
      have hMfp : FSM.lookup fp = some ((FSA.lookup TP).getD .emptyFile) := by
        rw [hFSM, shutilMove_getLastD_lookup env.renameReplaces FSA TP fp htpf fp]
        simp
      have hMfpSome : (FSM.lookup fp).isSome := by rw [hMfp]; rfl
      have hMfp_rf : rf = false → FSM.lookup fp = some (serializePlain self.df fp.ext) := by
        intro hrf
        rw [hMfp, hAtp_rf hrf]
        rfl
      have hMbp : FSM.lookup (backupPath fp) = fs0.lookup (backupPath fp) := by
        rw [hFSM, shutilMove_getLastD_lookup env.renameReplaces FSA TP fp htpf (backupPath fp)]
        simp [hbpf, hbtp, hAbp]
      have hMbpex : FSM.existsFile (backupPath fp) = fs0.existsFile (backupPath fp) := by
        unfold FileSys.existsFile
        rw [hMbp]
      intro hok
      split
      · rename_i hcb
        split
        · rename_i hcond
          rw [Bool.and_eq_true] at hcond
          obtain ⟨v, hv⟩ := Option.isSome_iff_exists.mp hMfpSome
          refine ⟨?_, ?_, ?_, ?_, ?_⟩
          · simp [FileSys.lookup_writeFile, hfpbp, hMfpSome]
          · intro hrf
            simp only [FileSys.lookup_writeFile, if_neg hfpbp]
            exact hMfp_rf hrf
          · intro _ _ _
            simp only [FileSys.lookup_writeFile, if_pos rfl, if_neg hfpbp]
            rw [hv]
            rfl
          · intro _ hbex0
            exfalso
            rw [hMbpex, hbex0] at hcond
            exact Bool.false_ne_true hcond.1
          · intro hbav0
            exfalso
            rw [hbav0] at hcond
            exact Bool.false_ne_true hcond.2
        · rename_i hcond
          refine ⟨hMfpSome, hMfp_rf, ?_, ?_, fun _ => hMbp⟩
          · intro _ hbex hbav
            exfalso
            apply hcond
            rw [Bool.and_eq_true, hMbpex]
            exact ⟨hbex, hbav⟩
          · intro _ hbex0
            rw [hMbp]
            unfold FileSys.existsFile at hbex0
            cases h0 : fs0.lookup (backupPath fp) with
            | none => rfl
            | some v => rw [h0] at hbex0; cases hbex0
      · rename_i hcb
        refine ⟨hMfpSome, hMfp_rf, ?_, ?_, fun _ => hMbp⟩
        · intro hcbt
          exact absurd hcbt (by simpa using hcb)
        · intro hcbt
          exact absurd hcbt (by simpa using hcb)

theorem body_result_ignores_backupAvailable (self : AdvancePandas) (fp : FPath)
    (rf ao cb : Bool) (nm : String) (ta b1 b2 ren : Bool) (fs0 : FileSys) :
    (saveToFileBody self fp rf ao cb ⟨nm, ta, b1, ren⟩ fs0).2.2 =
    (saveToFileBody self fp rf ao cb ⟨nm, ta, b2, ren⟩ fs0).2.2 := by
  simp only [saveToFileBody]
  split
  · rfl
  · split
    · rfl
    · split
      · split <;> split <;> rfl
      · rfl

theorem saveToFile_ok_ext (self : AdvancePandas) (fp : FPath) (rf ao cb : Bool)
    (env : SaveEnv) (st : PState)
    (hok : (saveToFile self fp rf ao cb env st).2.2 = .ok ()) :
    fp.ext = ".csv" ∨ fp.ext = ".xlsx" := by
  by_cases hval : fp.ext = ".csv" ∨ fp.ext = ".xlsx"
  · exact hval
  · exfalso
    simp only [saveToFile] at hok
    rw [if_neg hval] at hok
    cases hok

theorem saveToFile_eq_body (self : AdvancePandas) (fp : FPath) (rf ao cb : Bool)
    (env : SaveEnv) (st : PState)
    (hval : fp.ext = ".csv" ∨ fp.ext = ".xlsx") :
    saveToFile self fp rf ao cb env st =
      (⟨(saveToFileBody self fp rf ao cb env st.fs).1, .defaultInt⟩,
       (saveToFileBody self fp rf ao cb env st.fs).2.1,
       (saveToFileBody self fp rf ao cb env st.fs).2.2) := by
  simp only [saveToFile]
  rw [if_pos hval]

/-- Scenario filesystem with a stale backup file already present next to
`data.csv`. -/
def fsScenB : FileSys :=
  ⟨[(dataCsvPath, .csvFile dfOld.cols dfOld.rows),
    (backupPath dataCsvPath, .csvFile dfOld.cols dfOld.rows)], []⟩

/-- C1 amended: for every successful save with `create_backup = True`, the
destination ends up holding the new content (for `retain_format = False`,
exactly the plain serialization of the frame); a backup file is written only
when a file already existed at the backup path and the backup wait reported
it available, and the backup then holds the new just-saved content (it equals
the destination's content), not the pre-save snapshot; when no file existed
at the backup path, none is created. -/
theorem backup_refreshes_existing_with_new_content
    (self : AdvancePandas) (fp : FPath) (rf ao : Bool) (env : SaveEnv) (st : PState)
    (hok : (saveToFile self fp rf ao true env st).2.2 = .ok ()) :
    ((saveToFile self fp rf ao true env st).1.fs.lookup fp).isSome ∧
    (rf = false → (saveToFile self fp rf ao true env st).1.fs.lookup fp =
        some (serializePlain self.df fp.ext)) ∧
    (st.fs.existsFile (backupPath fp) = true → env.backupAvailable = true →
       (saveToFile self fp rf ao true env st).1.fs.lookup (backupPath fp) =
       (saveToFile self fp rf ao true env st).1.fs.lookup fp) ∧
    (st.fs.existsFile (backupPath fp) = false →
       (saveToFile self fp rf ao true env st).1.fs.lookup (backupPath fp) = none) := by
  have hval := saveToFile_ok_ext self fp rf ao true env st hok
  rw [saveToFile_eq_body self fp rf ao true env st hval] at hok ⊢
  have h := saveToFileBody_ok_final self fp rf ao true env st.fs hok
  exact ⟨h.1, h.2.1, fun a b => h.2.2.1 rfl a b, fun a => h.2.2.2.1 rfl a⟩

/-- Witness for the amended backup behavior: over a pre-existing stale backup
file, the save succeeds and the refreshed backup equals the destination's new
content. -/
theorem backup_refreshes_existing_with_new_content_attest :
    ((saveToFile apScen dataCsvPath false false true envWin
        ⟨fsScenB, .defaultInt⟩).1.fs.lookup dataCsvPath).isSome ∧
    (saveToFile apScen dataCsvPath false false true envWin
        ⟨fsScenB, .defaultInt⟩).1.fs.lookup dataCsvPath =
      some (serializePlain apScen.df dataCsvPath.ext) ∧
    (saveToFile apScen dataCsvPath false false true envWin
        ⟨fsScenB, .defaultInt⟩).1.fs.lookup (backupPath dataCsvPath) =
      (saveToFile apScen dataCsvPath false false true envWin
        ⟨fsScenB, .defaultInt⟩).1.fs.lookup dataCsvPath := by
  have h := backup_refreshes_existing_with_new_content apScen dataCsvPath false false envWin
    ⟨fsScenB, .defaultInt⟩ (by decide)
  exact ⟨h.1, h.2.1 rfl, h.2.2.1 (by decide) rfl⟩

/-- C5: the outcome of a save never depends on the backup wait's result — a
backup path that never becomes available within the wait policy cannot fail
the save — and when the backup wait reports unavailability on a successful
save, the backup step is skipped (the backup path's content is untouched)
while the destination still receives the new content. -/
theorem backup_unavailable_skips_without_failing
    (self : AdvancePandas) (fp : FPath) (rf ao : Bool)
    (nm : String) (ta ren : Bool) (st : PState) :
    ((saveToFile self fp rf ao true ⟨nm, ta, false, ren⟩ st).2.2 =
     (saveToFile self fp rf ao true ⟨nm, ta, true, ren⟩ st).2.2) ∧
    ((saveToFile self fp rf ao true ⟨nm, ta, false, ren⟩ st).2.2 = .ok () →
      (saveToFile self fp rf ao true ⟨nm, ta, false, ren⟩ st).1.fs.lookup
          (backupPath fp) = st.fs.lookup (backupPath fp) ∧
      ((saveToFile self fp rf ao true ⟨nm, ta, false, ren⟩ st).1.fs.lookup fp).isSome) := by
  constructor
  · simp only [saveToFile]
    split
    · exact body_result_ignores_backupAvailable self fp rf ao true nm ta false true ren st.fs
    · rfl
  · intro hok
    have hval := saveToFile_ok_ext self fp rf ao true ⟨nm, ta, false, ren⟩ st hok
    rw [saveToFile_eq_body self fp rf ao true ⟨nm, ta, false, ren⟩ st hval] at hok ⊢
    have h := saveToFileBody_ok_final self fp rf ao true ⟨nm, ta, false, ren⟩ st.fs hok
    exact ⟨h.2.2.2.2 rfl, h.1⟩

/-- Witness for the backup-degradation theorem: saving over `data.csv` with a
pre-existing backup that never becomes available succeeds, leaves the stale
backup untouched, and updates the destination. -/
theorem backup_unavailable_skips_without_failing_attest :
    (saveToFile apScen dataCsvPath false false true ⟨"tmp0001", true, false, false⟩
        ⟨fsScenB, .defaultInt⟩).2.2 = .ok () ∧
    (saveToFile apScen dataCsvPath false false true ⟨"tmp0001", true, false, false⟩
        ⟨fsScenB, .defaultInt⟩).1.fs.lookup (backupPath dataCsvPath) =
      fsScenB.lookup (backupPath dataCsvPath) ∧
    ((saveToFile apScen dataCsvPath false false true ⟨"tmp0001", true, false, false⟩
        ⟨fsScenB, .defaultInt⟩).1.fs.lookup dataCsvPath).isSome := by
  have h := (backup_unavailable_skips_without_failing apScen dataCsvPath false false
    "tmp0001" true false ⟨fsScenB, .defaultInt⟩).2 (by decide)
  exact ⟨by decide, h.1, h.2⟩

theorem body_retain_no_reference (self : AdvancePandas) (fp : FPath) (ao cb : Bool)
    (env : SaveEnv) (fs0 : FileSys)
    (hnex : fs0.existsFile fp = false) (hsrc : self.source_file = none) :
    (saveToFileBody self fp true ao cb env fs0).2.2 = .ok () ∧
    (saveToFileBody self fp true ao cb env fs0).1.lookup fp =
      some (serializePlain self.df fp.ext) := by
  have htp : fp ≠ tempPathOf fp env.tmpName := (tempPathOf_ne fp env.tmpName).symm
  have htpf : tempPathOf fp env.tmpName ≠ fp := tempPathOf_ne fp env.tmpName
  have hbpf : backupPath fp ≠ fp := backupPath_ne fp
  have hfpbp : fp ≠ backupPath fp := hbpf.symm
  simp only [saveToFileBody, notifyWaitFree_eval]
  set TP := tempPathOf fp env.tmpName with hTP
  set FS3 : FileSys :=
    ((fs0.mkdir (tempDirOf fp)).writeFile TP FileData.emptyFile).writeFile TP
      (serializePlain self.df fp.ext) with hFS3
  have hFS3fp : FS3.lookup fp = fs0.lookup fp := by
    simp [hFS3, FileSys.lookup_writeFile, FileSys.lookup_mkdir, htp]
  have hFS3ex : FS3.existsFile fp = false := by
    unfold FileSys.existsFile at hnex ⊢
    rw [hFS3fp]
    exact hnex
  have hFS3tp : FS3.lookup TP = some (serializePlain self.df fp.ext) := by
    simp [hFS3, FileSys.lookup_writeFile]
  have hstep : retainFormatStep self fp TP FS3 = .ok [] := by
    simp [retainFormatStep, chooseReference, hFS3ex, hsrc]
  split
  · rename_i e heq
    rw [hstep] at heq
    cases heq
  · rename_i mid heq
    rw [hstep] at heq
    injection heq with heq
    subst heq
    have hgl : ([] : List FileSys).getLastD FS3 = FS3 := rfl
    split
    · rename_i e heq2
      rw [hgl, hFS3ex] at heq2
      cases heq2
    · rename_i wres heq2
      have hM : (((shutilMove env.renameReplaces (([] : List FileSys).getLastD FS3) TP
          fp).getLastD (([] : List FileSys).getLastD FS3)).lookup fp) =
          some (serializePlain self.df fp.ext) := by
        rw [hgl, shutilMove_getLastD_lookup env.renameReplaces FS3 TP fp htpf fp]
        rw [if_pos rfl, hFS3tp]
        rfl
      split
      · split
        · constructor
          · rfl
          · simp only [FileSys.lookup_writeFile, if_neg hfpbp]
            exact hM
        · exact ⟨rfl, hM⟩
      · exact ⟨rfl, hM⟩

theorem body_retain_missing_source (self : AdvancePandas) (fp sp : FPath) (ao cb : Bool)
    (env : SaveEnv) (fs0 : FileSys)
    (hnex : fs0.existsFile fp = false) (hsrc : self.source_file = some sp)
    (hx : sp.ext = ".xlsx" ∨ sp.ext = ".xls") (hmiss : fs0.lookup sp = none)
    (hsptp : sp ≠ tempPathOf fp env.tmpName) :
    (saveToFileBody self fp true ao cb env fs0).2.2 = .error .badWorkbook := by
  have htp : fp ≠ tempPathOf fp env.tmpName := (tempPathOf_ne fp env.tmpName).symm
  simp only [saveToFileBody, notifyWaitFree_eval]
  set TP := tempPathOf fp env.tmpName with hTP
  set FS3 : FileSys :=
    ((fs0.mkdir (tempDirOf fp)).writeFile TP FileData.emptyFile).writeFile TP
      (serializePlain self.df fp.ext) with hFS3
  have hFS3fp : FS3.lookup fp = fs0.lookup fp := by
    simp [hFS3, FileSys.lookup_writeFile, FileSys.lookup_mkdir, htp]
  have hFS3ex : FS3.existsFile fp = false := by
    unfold FileSys.existsFile at hnex ⊢
    rw [hFS3fp]
    exact hnex
  have hFS3sp : FS3.lookup sp = none := by
    simp [hFS3, FileSys.lookup_writeFile, FileSys.lookup_mkdir, hsptp, hmiss]
  have hstep : retainFormatStep self fp TP FS3 = .error .badWorkbook := by
    simp [retainFormatStep, chooseReference, loadWorkbook, hFS3ex, hsrc, hx, hFS3sp]
  split
  · rename_i e heq
    rw [hstep] at heq
    injection heq with heq
    subst heq
    rfl
  · rename_i mid heq
    rw [hstep] at heq
    cases heq

theorem body_csv_target_with_xlsx_source (self : AdvancePandas) (fp sp : FPath)
    (refSheet : Sheet) (ao cb : Bool) (env : SaveEnv) (fs0 : FileSys)
    (hext : fp.ext = ".csv")
    (hnex : fs0.existsFile fp = false) (hsrc : self.source_file = some sp)
    (hx : sp.ext = ".xlsx")
    (href : fs0.lookup sp = some (.xlsxFile refSheet)) :
    (saveToFileBody self fp true ao cb env fs0).2.2 = .ok () ∧
    (saveToFileBody self fp true ao cb env fs0).1.lookup fp =
      some (.xlsxFile (transferExcelFormat refSheet self.df)) := by
  have htp : fp ≠ tempPathOf fp env.tmpName := (tempPathOf_ne fp env.tmpName).symm
  have htpf : tempPathOf fp env.tmpName ≠ fp := tempPathOf_ne fp env.tmpName
  have hbpf : backupPath fp ≠ fp := backupPath_ne fp
  have hfpbp : fp ≠ backupPath fp := hbpf.symm
  have hsptp : sp ≠ tempPathOf fp env.tmpName := by
    intro h
    have hx2 := congrArg FPath.ext h
    rw [hx] at hx2
    simp only [tempPathOf] at hx2
    rw [hext] at hx2
    exact absurd hx2 (by decide)
  simp only [saveToFileBody, notifyWaitFree_eval]
  set TP := tempPathOf fp env.tmpName with hTP
  set FS3 : FileSys :=
    ((fs0.mkdir (tempDirOf fp)).writeFile TP FileData.emptyFile).writeFile TP
      (serializePlain self.df fp.ext) with hFS3
  have hFS3fp : FS3.lookup fp = fs0.lookup fp := by
    simp [hFS3, FileSys.lookup_writeFile, FileSys.lookup_mkdir, htp]
  have hFS3ex : FS3.existsFile fp = false := by
    unfold FileSys.existsFile at hnex ⊢
    rw [hFS3fp]
    exact hnex
  have hFS3sp : FS3.lookup sp = some (.xlsxFile refSheet) := by
    simp [hFS3, FileSys.lookup_writeFile, FileSys.lookup_mkdir, hsptp, href]
  have hstep : retainFormatStep self fp TP FS3 =
      .ok [FS3.writeFile TP (.xlsxFile (excelSheetOf self.df refSheet.title)),
           (FS3.writeFile TP (.xlsxFile (excelSheetOf self.df refSheet.title))).writeFile TP
             (.xlsxFile (transferExcelFormat refSheet self.df))] := by
    simp [retainFormatStep, chooseReference, loadWorkbook, hFS3ex, hsrc, hx, hFS3sp]
  split
  · rename_i e heq
    rw [hstep] at heq
    cases heq
  · rename_i mid heq
    rw [hstep] at heq
    injection heq with heq
    subst heq
    set FSF : FileSys :=
      (FS3.writeFile TP (.xlsxFile (excelSheetOf self.df refSheet.title))).writeFile TP
        (.xlsxFile (transferExcelFormat refSheet self.df)) with hFSF
    have hglA : [FS3.writeFile TP (.xlsxFile (excelSheetOf self.df refSheet.title)),
        FSF].getLastD FS3 = FSF := rfl
    have hFSFfp : FSF.lookup fp = fs0.lookup fp := by
      simp [hFSF, FileSys.lookup_writeFile, htp, hFS3fp]
    have hFSFex : FSF.existsFile fp = false := by
      unfold FileSys.existsFile at hnex ⊢
      rw [hFSFfp]
      exact hnex
    have hFSFtp : FSF.lookup TP = some (.xlsxFile (transferExcelFormat refSheet self.df)) := by
      simp [hFSF, FileSys.lookup_writeFile]
    split
    · rename_i e heq2
      rw [hglA, hFSFex] at heq2
      cases heq2
    · rename_i wres heq2
      have hM : (((shutilMove env.renameReplaces
          ([FS3.writeFile TP (.xlsxFile (excelSheetOf self.df refSheet.title)),
            FSF].getLastD FS3) TP fp).getLastD
          ([FS3.writeFile TP (.xlsxFile (excelSheetOf self.df refSheet.title)),
            FSF].getLastD FS3)).lookup fp) =
          some (.xlsxFile (transferExcelFormat refSheet self.df)) := by
        rw [hglA, shutilMove_getLastD_lookup env.renameReplaces FSF TP fp htpf fp]
        rw [if_pos rfl, hFSFtp]
        rfl
      split
      · split
        · constructor
          · rfl
          · simp only [FileSys.lookup_writeFile, if_neg hfpbp]
            exact hM
        · exact ⟨rfl, hM⟩
      · exact ⟨rfl, hM⟩

def gonePath : FPath := ⟨"/work", "gone", ".xlsx"⟩

def outXlsxPath : FPath := ⟨"/work", "out", ".xlsx"⟩

/-- C6 counterexample: the target `/work/out.xlsx` does not exist and the
dataset's recorded source path `/work/gone.xlsx` does not exist either, yet
with `retain_format = True` the save does not proceed successfully with
default formatting — the code checks only that the chosen reference is set
and has a spreadsheet suffix, never that it exists, so the transplant is
attempted on the missing file and the save fails. -/
theorem transplant_attempted_for_missing_source_reference :
    fsScen.lookup gonePath = none ∧
    fsScen.existsFile outXlsxPath = false ∧
    (saveToFile ⟨dfNew, some gonePath, none⟩ outXlsxPath true false false envWin
      ⟨fsScen, .defaultInt⟩).2.2 = .error .badWorkbook := by
  refine ⟨by decide, by decide, by decide⟩

/-- C10: for a save to a not-yet-existing `.csv` target with
`retain_format = True` and a recorded source path holding an `.xlsx`
workbook, the Format Transplanter rewrites the temp file as a spreadsheet
workbook and that workbook is moved onto the `.csv` destination: the file at
the `.csv` path holds spreadsheet-workbook content, not delimited text. -/
theorem csv_target_receives_workbook_after_transplant
    (self : AdvancePandas) (fp sp : FPath) (refSheet : Sheet) (ao cb : Bool)
    (env : SaveEnv) (st : PState)
    (hext : fp.ext = ".csv") (hnex : st.fs.existsFile fp = false)
    (hsrc : self.source_file = some sp) (hx : sp.ext = ".xlsx")
    (href : st.fs.lookup sp = some (.xlsxFile refSheet)) :
    (saveToFile self fp true ao cb env st).2.2 = .ok () ∧
    (saveToFile self fp true ao cb env st).1.fs.lookup fp =
      some (.xlsxFile (transferExcelFormat refSheet self.df)) ∧
    ∀ cols rows, (saveToFile self fp true ao cb env st).1.fs.lookup fp ≠
      some (.csvFile cols rows) := by
  have hval : fp.ext = ".csv" ∨ fp.ext = ".xlsx" := Or.inl hext
  rw [saveToFile_eq_body self fp true ao cb env st hval]
  have h := body_csv_target_with_xlsx_source self fp sp refSheet ao cb env st.fs
    hext hnex hsrc hx href
  refine ⟨h.1, h.2, ?_⟩
  intro cols rows hcontra
  rw [h.2] at hcontra
  simp at hcontra

def srcXlsxPath : FPath := ⟨"/work", "src", ".xlsx"⟩

/-- A concrete reference worksheet: two columns, width set on column A,
distinct header alignments. -/
def refSheetC : Sheet :=
  ⟨"Data", 2, 4, [["h1", "h2"], ["x", "y"], ["z", "w"], ["u", "v"]],
   [(1, some 14)], [((1, 1), "center"), ((1, 2), "right")]⟩

def fsSrcXlsx : FileSys := ⟨[(srcXlsxPath, .xlsxFile refSheetC)], []⟩

def outCsvPath : FPath := ⟨"/work", "out", ".csv"⟩

/-- Witness for the workbook-at-csv-path theorem, at a concrete reference
workbook and frame. -/
theorem csv_target_receives_workbook_after_transplant_attest :
    (saveToFile ⟨dfNew, some srcXlsxPath, none⟩ outCsvPath true false false envWin
      ⟨fsSrcXlsx, .defaultInt⟩).2.2 = .ok () ∧
    (saveToFile ⟨dfNew, some srcXlsxPath, none⟩ outCsvPath true false false envWin
      ⟨fsSrcXlsx, .defaultInt⟩).1.fs.lookup outCsvPath =
      some (.xlsxFile (transferExcelFormat refSheetC dfNew)) := by
  have h := csv_target_receives_workbook_after_transplant ⟨dfNew, some srcXlsxPath, none⟩
    outCsvPath srcXlsxPath refSheetC false false envWin ⟨fsSrcXlsx, .defaultInt⟩
    (by decide) (by decide) rfl (by decide) (by decide)
  exact ⟨h.1, h.2.1⟩

/-- C7: the destination is resolved by exactly this precedence: an explicit
path is used as-is; else the stored destination path; else, with a stored
source path, the overwrite-source prompt decides between the source path
(yes) and the save-as dialog's answer (no); and when no path is obtained the
call fails with the no-path error before anything is written — the state and
trace are untouched. -/
theorem save_path_resolution_precedence (self : AdvancePandas) (renv : ResolveEnv) :
    (∀ p, resolveSavePath (some p) self.destination_file self.source_file renv = .ok p) ∧
    (∀ p, self.destination_file = some p →
       resolveSavePath none self.destination_file self.source_file renv = .ok p) ∧
    (self.destination_file = none → ∀ sp, self.source_file = some sp →
       resolveSavePath none self.destination_file self.source_file renv =
         (if renv.overwriteSource then .ok sp
          else match renv.saveAsAnswer with
               | some q => .ok q
               | none => .error .noPath)) ∧
    (self.destination_file = none → self.source_file = none →
       resolveSavePath none self.destination_file self.source_file renv = .error .noPath) ∧
    (∀ filePath rf ao cb env st,
       resolveSavePath filePath self.destination_file self.source_file renv =
         .error .noPath →
       save self filePath rf ao cb renv env st = (st, [st.fs], .error .noPath)) := by
  refine ⟨fun p => rfl, ?_, ?_, ?_, ?_⟩
  · intro p hd
    simp [resolveSavePath, hd]
  · intro hd sp hs
    rw [resolveSavePath.eq_def, hd, hs]
    rcases ho : renv.overwriteSource with _ | _ <;>
      rcases ha : renv.saveAsAnswer with _ | q <;> simp [ho, ha]
  · intro hd hs
    simp [resolveSavePath, hd, hs]
  · intro filePath rf ao cb env st hres
    simp [save, hres]

/-- Witness for the resolution-precedence theorem at concrete inputs: no
explicit path, no stored destination, a stored source, prompt answered no and
dialog cancelled — resolution fails with the no-path error and `save` leaves
everything untouched. -/
theorem save_path_resolution_precedence_attest :
    resolveSavePath none none (some dataCsvPath) ⟨false, none⟩ = .error .noPath ∧
    save ⟨dfNew, some dataCsvPath, none⟩ none false false false ⟨false, none⟩ envWin stScen =
      (stScen, [stScen.fs], .error .noPath) ∧
    resolveSavePath (some outCsvPath) none (some dataCsvPath) ⟨false, none⟩ = .ok outCsvPath := by
  have h := save_path_resolution_precedence ⟨dfNew, some dataCsvPath, none⟩ ⟨false, none⟩
  refine ⟨?_, ?_, h.1 outCsvPath⟩
  · have := h.2.2.1 rfl dataCsvPath rfl
    simpa using this
  · exact h.2.2.2.2 none false false false envWin stScen (by decide)

/-- C9: a derived dataset — built, as pandas does through the `_constructor`
hook and `__finalize__` copying of every `_metadata` attribute, from the
original — keeps `source_file` and `destination_file` equal to the
original's, for an arbitrary transformation as well as for the concrete copy,
filter and add-column operations. -/
theorem derived_dataset_preserves_provenance_metadata
    (a : AdvancePandas) (t : DataFrame → DataFrame) (p : List String → Bool)
    (name : String) (vals : List String) :
    (derive a t).source_file = a.source_file ∧
    (derive a t).destination_file = a.destination_file ∧
    (copyDataset a).source_file = a.source_file ∧
    (copyDataset a).destination_file = a.destination_file ∧
    (filterRows a p).source_file = a.source_file ∧
    (filterRows a p).destination_file = a.destination_file ∧
    (addColumn a name vals).source_file = a.source_file ∧
    (addColumn a name vals).destination_file = a.destination_file :=
  ⟨rfl, rfl, rfl, rfl, rfl, rfl, rfl, rfl⟩

theorem Sheet.widthOf_setWidth (s : Sheet) (c : Nat) (w : Option Nat) (c' : Nat) :
    (s.setWidth c w).widthOf c' = if c' = c then w else s.widthOf c' := by
  by_cases h : c' = c <;> simp [Sheet.setWidth, Sheet.widthOf, Assoc.get, h]

theorem Sheet.alignOf_setAlign (s : Sheet) (r c : Nat) (al : String) (r' c' : Nat) :
    (s.setAlign r c al).alignOf r' c' =
      if r' = r ∧ c' = c then al else s.alignOf r' c' := by
  by_cases h1 : r' = r <;> by_cases h2 : c' = c <;>
    simp [Sheet.setAlign, Sheet.alignOf, Assoc.get, h1, h2]

theorem Sheet.alignOf_setWidth (s : Sheet) (c : Nat) (w : Option Nat) (r' c' : Nat) :
    (s.setWidth c w).alignOf r' c' = s.alignOf r' c' := rfl

theorem Sheet.widthOf_setAlign (s : Sheet) (r c : Nat) (al : String) (c' : Nat) :
    (s.setAlign r c al).widthOf c' = s.widthOf c' := rfl

theorem foldAlign_maxRow (c : Nat) (al : String) :
    ∀ (n a : Nat) (s : Sheet),
      ((countFrom a n).foldl (fun t r => t.setAlign r c al) s).maxRow = s.maxRow := by
  intro n
  induction n with
  | zero => intro a s; rfl
  | succ m ih =>
    intro a s
    simp only [countFrom, List.foldl]
    rw [ih]
    rfl

theorem foldAlign_widthOf (c : Nat) (al : String) (c' : Nat) :
    ∀ (n a : Nat) (s : Sheet),
      ((countFrom a n).foldl (fun t r => t.setAlign r c al) s).widthOf c' = s.widthOf c' := by
  intro n
  induction n with
  | zero => intro a s; rfl
  | succ m ih =>
    intro a s
    simp only [countFrom, List.foldl]
    rw [ih]
    rfl

theorem foldAlign_alignOf (c : Nat) (al : String) (r c' : Nat) :
    ∀ (n a : Nat) (s : Sheet),
      ((countFrom a n).foldl (fun t r => t.setAlign r c al) s).alignOf r c' =
        if c' = c ∧ a ≤ r ∧ r < a + n then al else s.alignOf r c' := by
  intro n
  induction n with
  | zero =>
    intro a s
    rw [if_neg]
    · rfl
    · intro h
      omega
  | succ m ih =>
    intro a s
    simp only [countFrom, List.foldl]
    rw [ih (a + 1) (s.setAlign a c al), Sheet.alignOf_setAlign]
    split_ifs <;> first | rfl | omega

theorem applyColumnFormat_maxRow (s : Sheet) (e : Nat × String × Option Nat × String) :
    (applyColumnFormat s e).maxRow = s.maxRow := by
  simp only [applyColumnFormat]
  rw [foldAlign_maxRow]
  rfl

theorem applyColumnFormat_widthOf (s : Sheet) (e : Nat × String × Option Nat × String)
    (c' : Nat) :
    (applyColumnFormat s e).widthOf c' = if c' = e.1 then e.2.2.1 else s.widthOf c' := by
  simp only [applyColumnFormat]
  rw [foldAlign_widthOf, Sheet.widthOf_setWidth]

theorem applyColumnFormat_alignOf (s : Sheet) (e : Nat × String × Option Nat × String)
    (r c' : Nat) :
    (applyColumnFormat s e).alignOf r c' =
      if c' = e.1 ∧ 1 ≤ r ∧ r ≤ s.maxRow then e.2.2.2 else s.alignOf r c' := by
  simp only [applyColumnFormat]
  rw [foldAlign_alignOf, Sheet.alignOf_setWidth]
  have hmr : (s.setWidth e.1 e.2.2.1).maxRow = s.maxRow := rfl
  rw [hmr]
  split_ifs <;> first | rfl | omega

theorem outerFold_maxRow (f : Nat → Nat × String × Option Nat × String) :
    ∀ (n a : Nat) (s : Sheet),
      (((countFrom a n).map f).foldl applyColumnFormat s).maxRow = s.maxRow := by
  intro n
  induction n with
  | zero => intro a s; rfl
  | succ m ih =>
    intro a s
    simp only [countFrom, List.map, List.foldl]
    rw [ih, applyColumnFormat_maxRow]

theorem outerFold_widthOf_lt (f : Nat → Nat × String × Option Nat × String)
    (hf : ∀ x, (f x).1 = x) (c' : Nat) :
    ∀ (n a : Nat), c' < a → ∀ s : Sheet,
      (((countFrom a n).map f).foldl applyColumnFormat s).widthOf c' = s.widthOf c' := by
  intro n
  induction n with
  | zero => intro a _ s; rfl
  | succ m ih =>
    intro a hlt s
    simp only [countFrom, List.map, List.foldl]
    rw [ih (a + 1) (by omega), applyColumnFormat_widthOf]
    rw [if_neg (by rw [hf a]; omega)]

theorem outerFold_alignOf_lt (f : Nat → Nat × String × Option Nat × String)
    (hf : ∀ x, (f x).1 = x) (r c' : Nat) :
    ∀ (n a : Nat), c' < a → ∀ s : Sheet,
      (((countFrom a n).map f).foldl applyColumnFormat s).alignOf r c' = s.alignOf r c' := by
  intro n
  induction n with
  | zero => intro a _ s; rfl
  | succ m ih =>
    intro a hlt s
    simp only [countFrom, List.map, List.foldl]
    rw [ih (a + 1) (by omega), applyColumnFormat_alignOf]
    rw [if_neg (fun h => by rw [hf a] at h; omega)]

theorem outerFold_widthOf_mem (f : Nat → Nat × String × Option Nat × String)
    (hf : ∀ x, (f x).1 = x) (c' : Nat) :
    ∀ (n a : Nat), a ≤ c' → c' < a + n → ∀ s : Sheet,
      (((countFrom a n).map f).foldl applyColumnFormat s).widthOf c' = (f c').2.2.1 := by
  intro n
  induction n with
  | zero =>
    intro a h1 h2 s
    exact absurd h2 (by omega)
  | succ m ih =>
    intro a h1 h2 s
    simp only [countFrom, List.map, List.foldl]
    by_cases hc : c' = a
    · subst hc
      rw [outerFold_widthOf_lt f hf c' m (c' + 1) (by omega), applyColumnFormat_widthOf]
      rw [if_pos (by rw [hf c'])]
    · exact ih (a + 1) (by omega) (by omega) _

theorem outerFold_alignOf_mem (f : Nat → Nat × String × Option Nat × String)
    (hf : ∀ x, (f x).1 = x) (r c' : Nat) :
    ∀ (n a : Nat), a ≤ c' → c' < a + n → ∀ s : Sheet, 1 ≤ r → r ≤ s.maxRow →
      (((countFrom a n).map f).foldl applyColumnFormat s).alignOf r c' = (f c').2.2.2 := by
  intro n
  induction n with
  | zero =>
    intro a h1 h2 s _ _
    exact absurd h2 (by omega)
  | succ m ih =>
    intro a h1 h2 s hr1 hr2
    simp only [countFrom, List.map, List.foldl]
    by_cases hc : c' = a
    · subst hc
      rw [outerFold_alignOf_lt f hf r c' m (c' + 1) (by omega), applyColumnFormat_alignOf]
      rw [if_pos ⟨by rw [hf c'], hr1, hr2⟩]
    · refine ih (a + 1) (by omega) (by omega) _ hr1 ?_
      rw [applyColumnFormat_maxRow]
      exact hr2

/-- C8: the Format Transplanter's snapshot captures, for every column from 1
to the reference sheet's column count, the column's width and the row-1
(header) cell's alignment, and applying it gives every such column of the
freshly written sheet (whose row range is the header plus all data rows) the
captured width, with every cell in the column's full range — all rows, not
just the header — receiving the captured header alignment. -/
theorem transplant_applies_width_and_header_alignment_to_full_column
    (refSheet : Sheet) (df : DataFrame) (c : Nat)
    (h1 : 1 ≤ c) (h2 : c ≤ refSheet.maxCol) :
    (transferExcelFormat refSheet df).maxRow = df.rows.length + 1 ∧
    (transferExcelFormat refSheet df).widthOf c = refSheet.widthOf c ∧
    ∀ r, 1 ≤ r → r ≤ (transferExcelFormat refSheet df).maxRow →
      (transferExcelFormat refSheet df).alignOf r c = refSheet.alignOf 1 c := by
  have hf : ∀ x, ((fun k => (k, getColumnLetter k, refSheet.widthOf k,
      refSheet.alignOf 1 k)) x).1 = x := fun x => rfl
  simp only [transferExcelFormat]
  refine ⟨?_, ?_, ?_⟩
  · rw [outerFold_maxRow]
    rfl
  · rw [outerFold_widthOf_mem _ hf c refSheet.maxCol 1 (by omega) (by omega)]
  · intro r hr1 hr2
    rw [outerFold_maxRow] at hr2
    rw [outerFold_alignOf_mem _ hf r c refSheet.maxCol 1 (by omega) (by omega)
      (excelSheetOf df refSheet.title) hr1 hr2]

/-- Witness for the transplant theorem at the concrete reference sheet: both
columns receive the reference's widths, and the last data row's cells carry
the reference's header alignments. -/
theorem transplant_applies_width_and_header_alignment_attest :
    (transferExcelFormat refSheetC dfNew).widthOf 1 = refSheetC.widthOf 1 ∧
    (transferExcelFormat refSheetC dfNew).alignOf 4 1 = refSheetC.alignOf 1 1 ∧
    (transferExcelFormat refSheetC dfNew).alignOf 4 2 = refSheetC.alignOf 1 2 := by
  have hx1 := transplant_applies_width_and_header_alignment_to_full_column refSheetC dfNew 1
    (by decide) (by decide)
  have hx2 := transplant_applies_width_and_header_alignment_to_full_column refSheetC dfNew 2
    (by decide) (by decide)
  exact ⟨hx1.2.1, hx1.2.2 4 (by decide) (by rw [hx1.1]; decide),
    hx2.2.2 4 (by decide) (by rw [hx2.1]; decide)⟩

theorem body_retain_target_xlsx (self : AdvancePandas) (fp : FPath) (refSheet : Sheet)
    (ao cb : Bool) (env : SaveEnv) (fs0 : FileSys)
    (hext : fp.ext = ".xlsx")
    (href : fs0.lookup fp = some (.xlsxFile refSheet))
    (hta : env.targetAvailable = true) :
    (saveToFileBody self fp true ao cb env fs0).2.2 = .ok () ∧
    (saveToFileBody self fp true ao cb env fs0).1.lookup fp =
      some (.xlsxFile (transferExcelFormat refSheet self.df)) := by
  have htp : fp ≠ tempPathOf fp env.tmpName := (tempPathOf_ne fp env.tmpName).symm
  have htpf : tempPathOf fp env.tmpName ≠ fp := tempPathOf_ne fp env.tmpName
  have hbpf : backupPath fp ≠ fp := backupPath_ne fp
  have hfpbp : fp ≠ backupPath fp := hbpf.symm
  simp only [saveToFileBody, notifyWaitFree_eval]
  set TP := tempPathOf fp env.tmpName with hTP
  set FS3 : FileSys :=
    ((fs0.mkdir (tempDirOf fp)).writeFile TP FileData.emptyFile).writeFile TP
      (serializePlain self.df fp.ext) with hFS3
  have hFS3fp : FS3.lookup fp = some (.xlsxFile refSheet) := by
    simp [hFS3, FileSys.lookup_writeFile, FileSys.lookup_mkdir, htp, href]
  have hFS3ex : FS3.existsFile fp = true := by
    unfold FileSys.existsFile
    rw [hFS3fp]
    rfl
  have hstep : retainFormatStep self fp TP FS3 =
      .ok [FS3.writeFile TP (.xlsxFile (excelSheetOf self.df refSheet.title)),
           (FS3.writeFile TP (.xlsxFile (excelSheetOf self.df refSheet.title))).writeFile TP
             (.xlsxFile (transferExcelFormat refSheet self.df))] := by
    simp [retainFormatStep, chooseReference, loadWorkbook, hFS3ex, hext, hFS3fp]
  split
  · rename_i e heq
    rw [hstep] at heq
    cases heq
  · rename_i mid heq
    rw [hstep] at heq
    injection heq with heq
    subst heq
    set FSF : FileSys :=
      (FS3.writeFile TP (.xlsxFile (excelSheetOf self.df refSheet.title))).writeFile TP
        (.xlsxFile (transferExcelFormat refSheet self.df)) with hFSF
    have hglA : [FS3.writeFile TP (.xlsxFile (excelSheetOf self.df refSheet.title)),
        FSF].getLastD FS3 = FSF := rfl
    have hFSFfp : FSF.lookup fp = some (.xlsxFile refSheet) := by
      simp [hFSF, FileSys.lookup_writeFile, htp, hFS3fp]
    have hFSFex : FSF.existsFile fp = true := by
      unfold FileSys.existsFile
      rw [hFSFfp]
      rfl
    have hFSFtp : FSF.lookup TP = some (.xlsxFile (transferExcelFormat refSheet self.df)) := by
      simp [hFSF, FileSys.lookup_writeFile]
    split
    · rename_i e heq2
      rw [hglA, hFSFex, hta] at heq2
      cases heq2
    · rename_i wres heq2
      have hM : (((shutilMove env.renameReplaces
          ([FS3.writeFile TP (.xlsxFile (excelSheetOf self.df refSheet.title)),
            FSF].getLastD FS3) TP fp).getLastD
          ([FS3.writeFile TP (.xlsxFile (excelSheetOf self.df refSheet.title)),
            FSF].getLastD FS3)).lookup fp) =
          some (.xlsxFile (transferExcelFormat refSheet self.df)) := by
        rw [hglA, shutilMove_getLastD_lookup env.renameReplaces FSF TP fp htpf fp]
        rw [if_pos rfl, hFSFtp]
        rfl
      split
      · split
        · constructor
          · rfl
          · simp only [FileSys.lookup_writeFile, if_neg hfpbp]
            exact hM
        · exact ⟨rfl, hM⟩
      · exact ⟨rfl, hM⟩

theorem body_retain_target_csv (self : AdvancePandas) (fp : FPath) (ao cb : Bool)
    (env : SaveEnv) (fs0 : FileSys)
    (hext : fp.ext = ".csv") (hex : fs0.existsFile fp = true)
    (hta : env.targetAvailable = true) :
    (saveToFileBody self fp true ao cb env fs0).2.2 = .ok () ∧
    (saveToFileBody self fp true ao cb env fs0).1.lookup fp =
      some (serializePlain self.df fp.ext) := by
  have htp : fp ≠ tempPathOf fp env.tmpName := (tempPathOf_ne fp env.tmpName).symm
  have htpf : tempPathOf fp env.tmpName ≠ fp := tempPathOf_ne fp env.tmpName
  have hbpf : backupPath fp ≠ fp := backupPath_ne fp
  have hfpbp : fp ≠ backupPath fp := hbpf.symm
  simp only [saveToFileBody, notifyWaitFree_eval]
  set TP := tempPathOf fp env.tmpName with hTP
  set FS3 : FileSys :=
    ((fs0.mkdir (tempDirOf fp)).writeFile TP FileData.emptyFile).writeFile TP
      (serializePlain self.df fp.ext) with hFS3
  have hFS3fp : FS3.lookup fp = fs0.lookup fp := by
    simp [hFS3, FileSys.lookup_writeFile, FileSys.lookup_mkdir, htp]
  have hFS3ex : FS3.existsFile fp = true := by
    unfold FileSys.existsFile at hex ⊢
    rw [hFS3fp]
    exact hex
  have hFS3tp : FS3.lookup TP = some (serializePlain self.df fp.ext) := by
    simp [hFS3, FileSys.lookup_writeFile]
  have hstep : retainFormatStep self fp TP FS3 = .ok [] := by
    simp [retainFormatStep, chooseReference, hFS3ex, hext]
  split
  · rename_i e heq
    rw [hstep] at heq
    cases heq
  · rename_i mid heq
    rw [hstep] at heq
    injection heq with heq
    subst heq
    have hgl : ([] : List FileSys).getLastD FS3 = FS3 := rfl
    split
    · rename_i e heq2
      rw [hgl, hFS3ex, hta] at heq2
      cases heq2
    · rename_i wres heq2
      have hM : (((shutilMove env.renameReplaces (([] : List FileSys).getLastD FS3) TP
          fp).getLastD (([] : List FileSys).getLastD FS3)).lookup fp) =
          some (serializePlain self.df fp.ext) := by
        rw [hgl, shutilMove_getLastD_lookup env.renameReplaces FS3 TP fp htpf fp]
        rw [if_pos rfl, hFS3tp]
        rfl
      split
      · split
        · constructor
          · rfl
          · simp only [FileSys.lookup_writeFile, if_neg hfpbp]
            exact hM
        · exact ⟨rfl, hM⟩
      · exact ⟨rfl, hM⟩

theorem body_retain_source_not_spreadsheet (self : AdvancePandas) (fp sp : FPath)
    (ao cb : Bool) (env : SaveEnv) (fs0 : FileSys)
    (hnex : fs0.existsFile fp = false) (hsrc : self.source_file = some sp)
    (hnx : ¬ (sp.ext = ".xlsx" ∨ sp.ext = ".xls")) :
    (saveToFileBody self fp true ao cb env fs0).2.2 = .ok () ∧
    (saveToFileBody self fp true ao cb env fs0).1.lookup fp =
      some (serializePlain self.df fp.ext) := by
  have htp : fp ≠ tempPathOf fp env.tmpName := (tempPathOf_ne fp env.tmpName).symm
  have htpf : tempPathOf fp env.tmpName ≠ fp := tempPathOf_ne fp env.tmpName
  have hbpf : backupPath fp ≠ fp := backupPath_ne fp
  have hfpbp : fp ≠ backupPath fp := hbpf.symm
  simp only [saveToFileBody, notifyWaitFree_eval]
  set TP := tempPathOf fp env.tmpName with hTP
  set FS3 : FileSys :=
    ((fs0.mkdir (tempDirOf fp)).writeFile TP FileData.emptyFile).writeFile TP
      (serializePlain self.df fp.ext) with hFS3
  have hFS3fp : FS3.lookup fp = fs0.lookup fp := by
    simp [hFS3, FileSys.lookup_writeFile, FileSys.lookup_mkdir, htp]
  have hFS3ex : FS3.existsFile fp = false := by
    unfold FileSys.existsFile at hnex ⊢
    rw [hFS3fp]
    exact hnex
  have hFS3tp : FS3.lookup TP = some (serializePlain self.df fp.ext) := by
    simp [hFS3, FileSys.lookup_writeFile]
  have hstep : retainFormatStep self fp TP FS3 = .ok [] := by
    simp [retainFormatStep, chooseReference, hFS3ex, hsrc, hnx]
  split
  · rename_i e heq
    rw [hstep] at heq
    cases heq
  · rename_i mid heq
    rw [hstep] at heq
    injection heq with heq
    subst heq
    have hgl : ([] : List FileSys).getLastD FS3 = FS3 := rfl
    split
    · rename_i e heq2
      rw [hgl, hFS3ex] at heq2
      cases heq2
    · rename_i wres heq2
      have hM : (((shutilMove env.renameReplaces (([] : List FileSys).getLastD FS3) TP
          fp).getLastD (([] : List FileSys).getLastD FS3)).lookup fp) =
          some (serializePlain self.df fp.ext) := by
        rw [hgl, shutilMove_getLastD_lookup env.renameReplaces FS3 TP fp htpf fp]
        rw [if_pos rfl, hFS3tp]
        rfl
      split
      · split
        · constructor
          · rfl
          · simp only [FileSys.lookup_writeFile, if_neg hfpbp]
            exact hM
        · exact ⟨rfl, hM⟩
      · exact ⟨rfl, hM⟩

def bookXlsxPath : FPath := ⟨"/work", "book", ".xlsx"⟩

def fsBook : FileSys := ⟨[(bookXlsxPath, .xlsxFile refSheetC)], []⟩

/-- C6 amended: the reference is the target path if the target already
exists, else the dataset's recorded source path if set, else none; the
Format Transplanter is invoked iff that reference is set and has a
spreadsheet extension (.xlsx/.xls) — its existence is never checked.  When no
reference is obtained, or the reference's extension is not a spreadsheet
extension, the transplant is skipped and the save completes with default
formatting; an existing spreadsheet target is transplanted from its own
previous content; and a set but non-existent spreadsheet-suffixed source
reference makes the transplant run and the whole save fail with the
workbook-load error instead of proceeding with default formatting. -/
theorem reference_selection_characterization
    (self : AdvancePandas) (fp sp : FPath) (refSheet : Sheet) (ao cb : Bool)
    (env : SaveEnv) (st : PState) :
    (fp.ext = ".xlsx" → st.fs.lookup fp = some (.xlsxFile refSheet) →
      env.targetAvailable = true →
      (saveToFile self fp true ao cb env st).2.2 = .ok () ∧
      (saveToFile self fp true ao cb env st).1.fs.lookup fp =
        some (.xlsxFile (transferExcelFormat refSheet self.df))) ∧
    (fp.ext = ".csv" → st.fs.existsFile fp = true → env.targetAvailable = true →
      (saveToFile self fp true ao cb env st).2.2 = .ok () ∧
      (saveToFile self fp true ao cb env st).1.fs.lookup fp =
        some (serializePlain self.df fp.ext)) ∧
    ((fp.ext = ".csv" ∨ fp.ext = ".xlsx") → st.fs.existsFile fp = false →
      self.source_file = some sp → ¬ (sp.ext = ".xlsx" ∨ sp.ext = ".xls") →
      (saveToFile self fp true ao cb env st).2.2 = .ok () ∧
      (saveToFile self fp true ao cb env st).1.fs.lookup fp =
        some (serializePlain self.df fp.ext)) ∧
    ((fp.ext = ".csv" ∨ fp.ext = ".xlsx") → st.fs.existsFile fp = false →
      self.source_file = some sp → (sp.ext = ".xlsx" ∨ sp.ext = ".xls") →
      st.fs.lookup sp = none → sp ≠ tempPathOf fp env.tmpName →
      (saveToFile self fp true ao cb env st).2.2 = .error .badWorkbook) ∧
    ((fp.ext = ".csv" ∨ fp.ext = ".xlsx") → st.fs.existsFile fp = false →
      self.source_file = none →
      (saveToFile self fp true ao cb env st).2.2 = .ok () ∧
      (saveToFile self fp true ao cb env st).1.fs.lookup fp =
        some (serializePlain self.df fp.ext)) := by
  refine ⟨?_, ?_, ?_, ?_, ?_⟩
  · intro hext href hta
    rw [saveToFile_eq_body self fp true ao cb env st (Or.inr hext)]
    exact body_retain_target_xlsx self fp refSheet ao cb env st.fs hext href hta
  · intro hext hex hta
    rw [saveToFile_eq_body self fp true ao cb env st (Or.inl hext)]
    exact body_retain_target_csv self fp ao cb env st.fs hext hex hta
  · intro hval hnex hsrc hnx
    rw [saveToFile_eq_body self fp true ao cb env st hval]
    exact body_retain_source_not_spreadsheet self fp sp ao cb env st.fs hnex hsrc hnx
  · intro hval hnex hsrc hx hmiss hsptp
    rw [saveToFile_eq_body self fp true ao cb env st hval]
    exact body_retain_missing_source self fp sp ao cb env st.fs hnex hsrc hx hmiss hsptp
  · intro hval hnex hsrc
    rw [saveToFile_eq_body self fp true ao cb env st hval]
    exact body_retain_no_reference self fp ao cb env st.fs hnex hsrc

/-- Witness for the reference-selection theorem, exercising every branch at
concrete inputs: an existing `.xlsx` target is transplanted from its own
previous content; an existing `.csv` target is a set reference that is
skipped for its non-spreadsheet suffix; a set `.csv`-suffixed source
reference is skipped likewise; a set but missing `.xlsx` source reference
fails the save; and no reference at all completes with default formatting. -/
theorem reference_selection_characterization_attest :
    ((saveToFile ⟨dfNew, none, none⟩ bookXlsxPath true false false envWin
        ⟨fsBook, .defaultInt⟩).2.2 = .ok () ∧
      (saveToFile ⟨dfNew, none, none⟩ bookXlsxPath true false false envWin
        ⟨fsBook, .defaultInt⟩).1.fs.lookup bookXlsxPath =
        some (.xlsxFile (transferExcelFormat refSheetC dfNew))) ∧
    ((saveToFile apScen dataCsvPath true false false envWin stScen).2.2 = .ok () ∧
      (saveToFile apScen dataCsvPath true false false envWin stScen).1.fs.lookup dataCsvPath =
        some (serializePlain dfNew dataCsvPath.ext)) ∧
    (saveToFile ⟨dfNew, some dataCsvPath, none⟩ outXlsxPath true false false envWin
      ⟨fsScen, .defaultInt⟩).2.2 = .ok () ∧
    (saveToFile ⟨dfNew, some gonePath, none⟩ outXlsxPath true false false envWin
      ⟨fsScen, .defaultInt⟩).2.2 = .error .badWorkbook ∧
    (saveToFile ⟨dfNew, none, none⟩ outXlsxPath true false false envWin
      ⟨fsScen, .defaultInt⟩).2.2 = .ok () := by
  have h1 := (reference_selection_characterization ⟨dfNew, none, none⟩ bookXlsxPath gonePath refSheetC
    false false envWin ⟨fsBook, .defaultInt⟩).1 rfl (by decide) rfl
  have h2 := (reference_selection_characterization apScen dataCsvPath gonePath refSheetC
    false false envWin stScen).2.1 rfl (by decide) rfl
  have h3 := (reference_selection_characterization ⟨dfNew, some dataCsvPath, none⟩ outXlsxPath dataCsvPath
    refSheetC false false envWin ⟨fsScen, .defaultInt⟩).2.2.1 (by decide) (by decide) rfl
    (by decide)
  have h4 := (reference_selection_characterization ⟨dfNew, some gonePath, none⟩ outXlsxPath gonePath
    refSheetC false false envWin ⟨fsScen, .defaultInt⟩).2.2.2.1 (by decide) (by decide) rfl
    (by decide) (by decide) (by decide)
  have h5 := (reference_selection_characterization ⟨dfNew, none, none⟩ outXlsxPath gonePath refSheetC
    false false envWin ⟨fsScen, .defaultInt⟩).2.2.2.2 (by decide) (by decide) rfl
  exact ⟨h1, h2, h3.1, h4, h5.1⟩
